import Mathlib

/-!
Verification of the NBA player-season data pipeline
(`scripts/collect_player_seasons.py`).

The script fetches, for every season, two tables (league box-score stats
and estimated efficiency metrics), filters the raw-stats table by a
minimum-playing-time rule, inner-joins them on `PLAYER_ID`, derives
`TS_PCT` and `EXPERIENCE`, concatenates all seasons into one panel,
computes positional lag features per player, and labels breakout seasons
by a threshold on the one-year change of `E_NET_RATING`.

We embed the pipeline shallowly: tables are lists of records, numeric
columns are rationals (`ℚ`), columns that may be missing (NaN in the
source's dataframes) are `Option ℚ`, and the float edge cases the source
handles by `replace([inf, -inf], nan)` become explicit `none` branches.
-/

namespace NbaRegressor

/-- A row of the raw league-stats table (output of
`leaguedashplayerstats`), restricted to the columns the pipeline's logic
reads.  Counting stats are always-present numerics; percentage columns
may be missing (NaN) in the source and are `Option ℚ`. -/
structure LeagueRow where
  PLAYER_ID : Nat
  AGE : ℚ
  GP : ℚ
  MIN : ℚ
  FGA : ℚ
  FTA : ℚ
  PTS : ℚ
  AST : ℚ
  REB : ℚ
  FG_PCT : Option ℚ
  FG3_PCT : Option ℚ
deriving DecidableEq

/-- A row of the estimated-metrics table (output of
`playerestimatedmetrics`), restricted to the columns the pipeline's
logic reads. -/
structure MetricsRow where
  PLAYER_ID : Nat
  E_OFF_RATING : Option ℚ
  E_DEF_RATING : Option ℚ
  E_NET_RATING : Option ℚ
  E_USG_PCT : Option ℚ
deriving DecidableEq

/-- A merged player-season row, as produced by `merge_season_data`:
selected league columns, selected metrics columns, the season tag, and
the two derived fields `TS_PCT` and `EXPERIENCE`. -/
structure Row where
  PLAYER_ID : Nat
  SEASON : String
  AGE : ℚ
  GP : ℚ
  MIN : ℚ
  FGA : ℚ
  FTA : ℚ
  PTS : ℚ
  AST : ℚ
  REB : ℚ
  FG_PCT : Option ℚ
  FG3_PCT : Option ℚ
  E_OFF_RATING : Option ℚ
  E_DEF_RATING : Option ℚ
  E_NET_RATING : Option ℚ
  E_USG_PCT : Option ℚ
  TS_PCT : Option ℚ
  EXPERIENCE : ℚ
deriving DecidableEq

/-- Minimum-playing-time filter applied inside `collect_league_stats`
(line 60): `df = df[df['MIN'] * df['GP'] >= 500]`. -/
def minMinutesFilter (rows : List LeagueRow) : List LeagueRow :=
  rows.filter (fun r => decide (500 ≤ r.MIN * r.GP))

/-- `collect_league_stats`: the fetch either fails (`none`, after the
retry budget is exhausted) or returns the raw table, which is filtered
by the minimum-playing-time rule before being returned. -/
def collect_league_stats (fetched : Option (List LeagueRow)) : Option (List LeagueRow) :=
  fetched.map minMinutesFilter

/-- One merged output row built from a league row and a metrics row with
the same `PLAYER_ID` (lines 142-159): copies the selected columns, tags
the season, and computes `TS_PCT = PTS / (2 * (FGA + 0.44 * FTA))`
(missing when the denominator is zero, mirroring the inf/NaN
replacement) and `EXPERIENCE = max 0 (AGE - 19)`. -/
def mkMergedRow (l : LeagueRow) (m : MetricsRow) (season : String) : Row :=
  { PLAYER_ID := l.PLAYER_ID
    SEASON := season
    AGE := l.AGE
    GP := l.GP
    MIN := l.MIN
    FGA := l.FGA
    FTA := l.FTA
    PTS := l.PTS
    AST := l.AST
    REB := l.REB
    FG_PCT := l.FG_PCT
    FG3_PCT := l.FG3_PCT
    E_OFF_RATING := m.E_OFF_RATING
    E_DEF_RATING := m.E_DEF_RATING
    E_NET_RATING := m.E_NET_RATING
    E_USG_PCT := m.E_USG_PCT
    TS_PCT :=
      if 2 * (l.FGA + 44 / 100 * l.FTA) = 0 then none
      else some (l.PTS / (2 * (l.FGA + 44 / 100 * l.FTA)))
    EXPERIENCE := max 0 (l.AGE - 19) }

/-- The inner join of `pd.merge(..., on='PLAYER_ID', how='inner')`: each
league row pairs with every metrics row sharing its `PLAYER_ID`. -/
def mergeTables (ls : List LeagueRow) (ms : List MetricsRow) (season : String) : List Row :=
  ls.flatMap (fun l =>
    (ms.filter (fun m => m.PLAYER_ID == l.PLAYER_ID)).map (fun m => mkMergedRow l m season))

/-- `merge_season_data` (lines 108-163): returns `none` when either
input is absent, otherwise the inner-joined, derived-column-augmented
season table. -/
def merge_season_data :
    Option (List LeagueRow) → Option (List MetricsRow) → String → Option (List Row)
  | some ls, some ms, season => some (mergeTables ls ms season)
  | _, _, _ => none

/-- The fixed metric set M that `calculate_lag_features` lags
(lines 248-252). -/
inductive LagMetric
  | E_NET_RATING
  | E_OFF_RATING
  | E_DEF_RATING
  | PTS
  | AST
  | REB
  | MIN
  | GP
  | TS_PCT
  | E_USG_PCT
  | FG_PCT
  | FG3_PCT
deriving DecidableEq

/-- The lag-metric list in source order. -/
def lag_metrics : List LagMetric :=
  [.E_NET_RATING, .E_OFF_RATING, .E_DEF_RATING, .PTS, .AST, .REB, .MIN, .GP,
   .TS_PCT, .E_USG_PCT, .FG_PCT, .FG3_PCT]

/-- The value a metric column holds on a merged row (always-present
columns wrapped in `some`). -/
def metricVal : LagMetric → Row → Option ℚ
  | .E_NET_RATING, r => r.E_NET_RATING
  | .E_OFF_RATING, r => r.E_OFF_RATING
  | .E_DEF_RATING, r => r.E_DEF_RATING
  | .PTS, r => some r.PTS
  | .AST, r => some r.AST
  | .REB, r => some r.REB
  | .MIN, r => some r.MIN
  | .GP, r => some r.GP
  | .TS_PCT, r => r.TS_PCT
  | .E_USG_PCT, r => r.E_USG_PCT
  | .FG_PCT, r => r.FG_PCT
  | .FG3_PCT, r => r.FG3_PCT

/-- A panel row augmented with the four lag/trend columns per metric, as
added by `calculate_lag_features`. -/
structure LaggedRow where
  base : Row
  prev : LagMetric → Option ℚ
  twoAgo : LagMetric → Option ℚ
  change : LagMetric → Option ℚ
  growth : LagMetric → Option ℚ

/-- Missing-propagating subtraction, the behaviour of pandas `-` with
NaN operands (line 265). -/
def optSub : Option ℚ → Option ℚ → Option ℚ
  | some a, some b => some (a - b)
  | _, _ => none

/-- `CHANGE_1YR / abs(PREV)` with `inf`/`-inf` replaced by NaN
(lines 268-270): missing when the change is missing, the previous value
is missing, or the previous value is zero. -/
def growthOf (chg pv : Option ℚ) : Option ℚ :=
  match chg, pv with
  | some c, some p => if p = 0 then none else some (c / |p|)
  | _, _ => none

/-- Attach the lag columns to row `r`, where `grp` is the list of
earlier rows of the same player in panel order: `shift(1)` reads the
last of `grp`, `shift(2)` the one before it (lines 258-270). -/
def addLags (r : Row) (grp : List Row) : LaggedRow :=
  { base := r
    prev := fun m => grp.getLast?.bind (metricVal m)
    twoAgo := fun m => grp.dropLast.getLast?.bind (metricVal m)
    change := fun m => optSub (metricVal m r) (grp.getLast?.bind (metricVal m))
    growth := fun m =>
      growthOf (optSub (metricVal m r) (grp.getLast?.bind (metricVal m)))
        (grp.getLast?.bind (metricVal m)) }

/-- The grouped-shift pass over the whole panel: each row's lag columns
are computed from the previously seen rows with the same `PLAYER_ID`,
which is exactly what `df.groupby('PLAYER_ID')[metric].shift(k)` reads
on a dataframe in its current order. -/
def lagPanelAux : List Row → List Row → List LaggedRow
  | _, [] => []
  | seen, r :: rest =>
      addLags r (seen.filter (fun s => s.PLAYER_ID == r.PLAYER_ID)) ::
        lagPanelAux (seen ++ [r]) rest

/-- Boolean sort key of `df.sort_values(['PLAYER_ID', 'SEASON'])`:
ascending on `PLAYER_ID`, ties broken by the string order of the season
token (lexicographic on its characters). -/
def rowLE (a b : Row) : Bool :=
  decide (a.PLAYER_ID < b.PLAYER_ID) ||
    (a.PLAYER_ID == b.PLAYER_ID && decide (a.SEASON ≤ b.SEASON))

/-- The sort step of `calculate_lag_features` (line 245).  A
multi-column pandas `sort_values` uses `np.lexsort`, which is stable, so
the embedding uses a stable merge sort. -/
def sortPanel (df : List Row) : List Row :=
  df.mergeSort rowLE

/-- `calculate_lag_features` (lines 234-274): stable-sort by
(`PLAYER_ID`, `SEASON`), then add the per-player positional lag columns
and the derived change/growth columns. -/
def calculate_lag_features (df : List Row) : List LaggedRow :=
  lagPanelAux [] (sortPanel df)

/-- A panel row after `label_breakouts`: the lag-augmented row plus the
`BREAKOUT` flag and `BREAKOUT_MAGNITUDE`. -/
structure LabeledRow where
  lag : LaggedRow
  BREAKOUT : Nat
  BREAKOUT_MAGNITUDE : Option ℚ

/-- Labelling of one row (lines 291-302): both label columns start at
0 / 0.0; rows with `E_NET_RATING_PREV` present get their magnitude
overwritten by `E_NET_RATING_CHANGE_1YR`, and get `BREAKOUT = 1` when
that change is present and at least the threshold (a NaN change
compares false in pandas, leaving the label 0). -/
def labelRow (threshold : ℚ) (r : LaggedRow) : LabeledRow :=
  { lag := r
    BREAKOUT :=
      if (r.prev .E_NET_RATING).isSome &&
          (match r.change .E_NET_RATING with
           | some c => decide (threshold ≤ c)
           | none => false) then 1 else 0
    BREAKOUT_MAGNITUDE :=
      if (r.prev .E_NET_RATING).isSome then r.change .E_NET_RATING else some 0 }

/-- `label_breakouts` (lines 277-323), label columns only (the printed
summary statistics are advisory and not modelled). -/
def label_breakouts (df : List LaggedRow) (threshold : ℚ) : List LabeledRow :=
  df.map (labelRow threshold)

/-- The per-season outcome of the orchestrator's fetch steps: the season
token plus each fetch's result (`none` means the retry budget was
exhausted). -/
structure SeasonFetch where
  season : String
  leagueResp : Option (List LeagueRow)
  metricsResp : Option (List MetricsRow)

/-- One iteration of the season loop in `collect_all_seasons`
(lines 191-198): fetch both tables, then merge. -/
def collectSeason (sf : SeasonFetch) : Option (List Row) :=
  merge_season_data (collect_league_stats sf.leagueResp) sf.metricsResp sf.season

/-- `collect_all_seasons` (lines 166-231): accumulate the successfully
merged seasons, return `none` when none succeeded, otherwise their
concatenation (`pd.concat`). -/
def collect_all_seasons (inputs : List SeasonFetch) : Option (List Row) :=
  let all := inputs.filterMap collectSeason
  if all.isEmpty then none else some all.flatten

/-- Number of seasons that were successfully collected and merged. -/
def seasonsSucceeded (inputs : List SeasonFetch) : Nat :=
  (inputs.filterMap collectSeason).length

/-- Observable outcome of a run of `main`: the process exit code and the
final dataset written (if any). -/
structure RunResult where
  exitCode : Nat
  finalDataset : Option (List LabeledRow)

/-- `main` (lines 340-386): on total collection failure exit with status
1 before any feature engineering and write nothing; otherwise compute
lag features, label breakouts with threshold 5.0, and write the final
dataset. -/
def main_run (inputs : List SeasonFetch) : RunResult :=
  match collect_all_seasons inputs with
  | none => { exitCode := 1, finalDataset := none }
  | some df =>
      { exitCode := 0
        finalDataset := some (label_breakouts (calculate_lag_features df) 5) }

/-- The grouped-shift pass specialised to a single player's rows: `seen`
is the prefix of the group already processed, and each row's lags read
the tail of `seen`.  `lagPanelAux` restricted (by filtering) to one
player computes exactly this. -/
def lagGroup : List Row → List Row → List LaggedRow
  | _, [] => []
  | seen, r :: rest => addLags r seen :: lagGroup (seen ++ [r]) rest

/-- A player's season-sorted sequence of panel rows: the rows of the
sorted panel carrying that `PLAYER_ID`, in order. -/
def playerSeq (df : List Row) (p : Nat) : List Row :=
  (sortPanel df).filter (fun r => r.PLAYER_ID == p)

/-- The rows of the lag-augmented panel belonging to one player, in
order. -/
def laggedPlayerSeq (df : List Row) (p : Nat) : List LaggedRow :=
  (calculate_lag_features df).filter (fun o => o.base.PLAYER_ID == p)

/-- The propositional sort key of the panel sort: ascending
`PLAYER_ID`, ties broken by lexicographic comparison of the season
tokens (character-list order). -/
def rowKeyLE (a b : Row) : Prop :=
  a.PLAYER_ID < b.PLAYER_ID ∨
    (a.PLAYER_ID = b.PLAYER_ID ∧
      (List.Lex (· < ·) a.SEASON.toList b.SEASON.toList ∨ a.SEASON = b.SEASON))

/-- Example league-stats row used to evaluate the theorems on concrete
data: 20 minutes over 50 games (1000 total minutes). -/
def lEx : LeagueRow :=
  { PLAYER_ID := 1, AGE := 25, GP := 50, MIN := 20, FGA := 10, FTA := 4,
    PTS := 12, AST := 3, REB := 5, FG_PCT := some (45 / 100), FG3_PCT := some (35 / 100) }

/-- Example estimated-metrics row for the same player. -/
def mEx : MetricsRow :=
  { PLAYER_ID := 1, E_OFF_RATING := some 110, E_DEF_RATING := some 105,
    E_NET_RATING := some 5, E_USG_PCT := some (20 / 100) }

/-- Example merged panel row: player 1, season 2018-19, net rating 3. -/
def rowA : Row :=
  { PLAYER_ID := 1, SEASON := "2018-19", AGE := 22, GP := 50, MIN := 20, FGA := 10,
    FTA := 4, PTS := 10, AST := 3, REB := 5, FG_PCT := none, FG3_PCT := none,
    E_OFF_RATING := none, E_DEF_RATING := none, E_NET_RATING := some 3,
    E_USG_PCT := none, TS_PCT := none, EXPERIENCE := 3 }

/-- Example merged panel row: player 1 again, season 2020-21 (a gap
season in between), net rating 8. -/
def rowB : Row :=
  { PLAYER_ID := 1, SEASON := "2020-21", AGE := 24, GP := 60, MIN := 25, FGA := 12,
    FTA := 5, PTS := 16, AST := 4, REB := 6, FG_PCT := none, FG3_PCT := none,
    E_OFF_RATING := none, E_DEF_RATING := none, E_NET_RATING := some 8,
    E_USG_PCT := none, TS_PCT := none, EXPERIENCE := 5 }

/-- Example panel: one player's two recorded seasons with a calendar
gap between them. -/
def panelEx : List Row := [rowA, rowB]

/-- Example lag-augmented row: previous net rating 3, current 8, so a
one-year change of exactly 5 (the threshold boundary). -/
def lagEx : LaggedRow :=
  { base := rowB
    prev := fun m => if m = .E_NET_RATING then some 3 else none
    twoAgo := fun _ => none
    change := fun m => if m = .E_NET_RATING then some 5 else none
    growth := fun m => if m = .E_NET_RATING then some (5 / 3) else none }

/-- The second lag-augmented row of the example panel (the row of
season 2020-21, whose previous recorded season is 2018-19). -/
def lagRowEx : LaggedRow := (lagPanelAux [] panelEx).get ⟨1, by decide⟩

/-- Membership characterisation of the inner join: a row is in the
merged table exactly when it is built from a league row and a metrics
row sharing a `PLAYER_ID`. -/
theorem mem_mergeTables {ls : List LeagueRow} {ms : List MetricsRow} {season : String}
    {r : Row} :
    r ∈ mergeTables ls ms season ↔
      ∃ l, l ∈ ls ∧ ∃ m, m ∈ ms ∧ m.PLAYER_ID = l.PLAYER_ID ∧ r = mkMergedRow l m season := by
  simp only [mergeTables, List.mem_flatMap, List.mem_map, List.mem_filter, beq_iff_eq]
  constructor
  · rintro ⟨l, hl, m, ⟨hm, hpid⟩, hEq⟩
    exact ⟨l, hl, m, hm, hpid, hEq.symm⟩
  · rintro ⟨l, hl, m, hm, hpid, hEq⟩
    exact ⟨l, hl, m, ⟨hm, hpid⟩, hEq.symm⟩

/-- C5: the season merge is an exact inner join on the player
identifier: a row appears in the merged output iff it is built from a
league row and a metrics row with the same `PLAYER_ID` (so a player
present in only one of the two inputs never appears, and every merged
row comes from a player present in both). -/
theorem c5_inner_join_exact (ls : List LeagueRow) (ms : List MetricsRow) (season : String)
    (r : Row) :
    r ∈ mergeTables ls ms season ↔
      ∃ l, l ∈ ls ∧ ∃ m, m ∈ ms ∧ m.PLAYER_ID = l.PLAYER_ID ∧
        r.PLAYER_ID = l.PLAYER_ID ∧ r = mkMergedRow l m season := by
  rw [mem_mergeTables]
  constructor
  · rintro ⟨l, hl, m, hm, hpid, rfl⟩
    exact ⟨l, hl, m, hm, hpid, rfl, rfl⟩
  · rintro ⟨l, hl, m, hm, hpid, -, hEq⟩
    exact ⟨l, hl, m, hm, hpid, hEq⟩

/-- Every row merged from the filtered raw-stats table satisfies the
minimum-playing-time threshold. -/
theorem mergeTables_min_minutes {ls : List LeagueRow} {ms : List MetricsRow}
    {season : String} :
    ∀ r ∈ mergeTables (minMinutesFilter ls) ms season, 500 ≤ r.MIN * r.GP := by
  intro r hr
  rcases mem_mergeTables.mp hr with ⟨l, hl, m, _, _, rfl⟩
  simp only [minMinutesFilter, List.mem_filter, decide_eq_true_eq] at hl
  simpa [mkMergedRow] using hl.2

/-- C6: the minimum-playing-time filter keeps exactly the raw-stats
rows with `MIN * GP ≥ 500`, every merged row built from the filtered
table satisfies the threshold, and consequently no merged row of any
collected season comes from a raw-stats row below 500 minutes. -/
theorem c6_min_minutes_filter (ls : List LeagueRow) (ms : List MetricsRow) (season : String) :
    (∀ l : LeagueRow, l ∈ minMinutesFilter ls ↔ l ∈ ls ∧ 500 ≤ l.MIN * l.GP) ∧
    (∀ r ∈ mergeTables (minMinutesFilter ls) ms season, 500 ≤ r.MIN * r.GP) ∧
    (∀ sf : SeasonFetch, ∀ out, collectSeason sf = some out →
      ∀ r ∈ out, 500 ≤ r.MIN * r.GP) := by
  refine ⟨?_, mergeTables_min_minutes, ?_⟩
  · intro l
    simp [minMinutesFilter, List.mem_filter]
  · intro sf out hout r hr
    cases hlr : sf.leagueResp with
    | none => simp [collectSeason, collect_league_stats, hlr, merge_season_data] at hout
    | some rawls =>
      cases hmr : sf.metricsResp with
      | none => simp [collectSeason, collect_league_stats, hlr, hmr, merge_season_data] at hout
      | some rawms =>
        simp only [collectSeason, collect_league_stats, hlr, hmr, Option.map_some',
          merge_season_data, Option.some.injEq] at hout
        subst hout
        exact mergeTables_min_minutes r hr

/-- Evaluates C6 on a concrete merged row. -/
theorem c6_min_minutes_filter_witness :
    500 ≤ (mkMergedRow lEx mEx "1996-97").MIN * (mkMergedRow lEx mEx "1996-97").GP :=
  (c6_min_minutes_filter [lEx] [mEx] "1996-97").2.1 (mkMergedRow lEx mEx "1996-97")
    (by with_unfolding_all decide)

/-- C7: on every merged row, `TS_PCT` is points over twice (field-goal
attempts plus 0.44 free-throw attempts), and is missing exactly when
that denominator is zero. -/
theorem c7_true_shooting (ls : List LeagueRow) (ms : List MetricsRow) (season : String)
    (r : Row) (hr : r ∈ mergeTables ls ms season) :
    (2 * (r.FGA + 44 / 100 * r.FTA) = 0 → r.TS_PCT = none) ∧
    (2 * (r.FGA + 44 / 100 * r.FTA) ≠ 0 →
      r.TS_PCT = some (r.PTS / (2 * (r.FGA + 44 / 100 * r.FTA)))) := by
  rcases mem_mergeTables.mp hr with ⟨l, _, m, _, _, rfl⟩
  constructor
  · intro h
    simp only [mkMergedRow] at h ⊢
    simp [h]
  · intro h
    simp only [mkMergedRow] at h ⊢
    simp [h]

/-- Evaluates C7 on a concrete merged row with a nonzero denominator. -/
theorem c7_true_shooting_witness :
    (mkMergedRow lEx mEx "1996-97").TS_PCT =
      some ((mkMergedRow lEx mEx "1996-97").PTS /
        (2 * ((mkMergedRow lEx mEx "1996-97").FGA +
          44 / 100 * (mkMergedRow lEx mEx "1996-97").FTA))) :=
  (c7_true_shooting [lEx] [mEx] "1996-97" (mkMergedRow lEx mEx "1996-97")
    (by with_unfolding_all decide)).2 (by with_unfolding_all decide)

/-- Membership characterisation of `label_breakouts`: its rows are the
input rows tagged by `labelRow`. -/
theorem mem_label_breakouts {df : List LaggedRow} {t : ℚ} {r : LabeledRow} :
    r ∈ label_breakouts df t ↔ ∃ x, x ∈ df ∧ r = labelRow t x := by
  simp only [label_breakouts, List.mem_map]
  constructor
  · rintro ⟨x, hx, hEq⟩
    exact ⟨x, hx, hEq.symm⟩
  · rintro ⟨x, hx, hEq⟩
    exact ⟨x, hx, hEq.symm⟩

/-- The `BREAKOUT` flag of a labelled row is 1 exactly when the
previous-season net rating is present and the one-year change is
present and at least the threshold. -/
theorem labelRow_BREAKOUT_eq_one {t : ℚ} {x : LaggedRow} :
    (labelRow t x).BREAKOUT = 1 ↔
      (x.prev .E_NET_RATING).isSome ∧
        ∃ c, x.change .E_NET_RATING = some c ∧ t ≤ c := by
  cases hp : x.prev .E_NET_RATING with
  | none => simp [labelRow, hp]
  | some p =>
    cases hc : x.change .E_NET_RATING with
    | none => simp [labelRow, hp, hc]
    | some c =>
      by_cases h : t ≤ c <;> simp [labelRow, hp, hc, h]

/-- The `BREAKOUT` flag only ever takes the values 0 and 1. -/
theorem labelRow_BREAKOUT_zero_or_one {t : ℚ} {x : LaggedRow} :
    (labelRow t x).BREAKOUT = 0 ∨ (labelRow t x).BREAKOUT = 1 := by
  unfold labelRow
  dsimp only
  split
  · right; rfl
  · left; rfl

/-- C1: for every row of the labelled panel, `BREAKOUT = 1` iff the row
is eligible (`E_NET_RATING_PREV` present) and its
`E_NET_RATING_CHANGE_1YR` is present and at least the threshold
(boundary inclusive); otherwise the label is 0. -/
theorem c1_breakout_label (df : List LaggedRow) (t : ℚ) (r : LabeledRow)
    (hr : r ∈ label_breakouts df t) :
    (r.BREAKOUT = 1 ↔
      (r.lag.prev .E_NET_RATING).isSome ∧
        ∃ c, r.lag.change .E_NET_RATING = some c ∧ t ≤ c) ∧
    (r.BREAKOUT = 0 ∨ r.BREAKOUT = 1) := by
  rcases mem_label_breakouts.mp hr with ⟨x, -, rfl⟩
  exact ⟨labelRow_BREAKOUT_eq_one, labelRow_BREAKOUT_zero_or_one⟩

/-- Evaluates C1 on a concrete boundary row: previous rating 3, change
exactly 5.0 at threshold 5.0. -/
theorem c1_breakout_label_witness :
    ((labelRow 5 lagEx).BREAKOUT = 1 ↔
      ((labelRow 5 lagEx).lag.prev .E_NET_RATING).isSome ∧
        ∃ c, (labelRow 5 lagEx).lag.change .E_NET_RATING = some c ∧ (5 : ℚ) ≤ c) ∧
    ((labelRow 5 lagEx).BREAKOUT = 0 ∨ (labelRow 5 lagEx).BREAKOUT = 1) :=
  c1_breakout_label [lagEx] 5 (labelRow 5 lagEx) (by simp [label_breakouts])

/-- C3: `BREAKOUT_MAGNITUDE` equals `E_NET_RATING_CHANGE_1YR` on
eligible rows and is the 0.0 sentinel on ineligible rows, so a 0.0 on
an ineligible row is distinguishable from a true zero change only via
the eligibility flag (`_PREV` presence). -/
theorem c3_breakout_magnitude (df : List LaggedRow) (t : ℚ) (r : LabeledRow)
    (hr : r ∈ label_breakouts df t) :
    ((r.lag.prev .E_NET_RATING).isSome →
      r.BREAKOUT_MAGNITUDE = r.lag.change .E_NET_RATING) ∧
    (r.lag.prev .E_NET_RATING = none → r.BREAKOUT_MAGNITUDE = some 0) := by
  rcases mem_label_breakouts.mp hr with ⟨x, -, rfl⟩
  constructor
  · intro h
    simp only [labelRow] at h ⊢
    simp [h]
  · intro h
    simp only [labelRow] at h ⊢
    simp [h]

/-- Evaluates C3 on a concrete eligible row. -/
theorem c3_breakout_magnitude_witness :
    (labelRow 5 lagEx).BREAKOUT_MAGNITUDE = (labelRow 5 lagEx).lag.change .E_NET_RATING :=
  (c3_breakout_magnitude [lagEx] 5 (labelRow 5 lagEx) (by simp [label_breakouts])).1
    (by simp [labelRow, lagEx])

/-- C10: after labelling, every `BREAKOUT` value is exactly 0 or 1, and
every positive row has a present `BREAKOUT_MAGNITUDE` at least the
threshold. -/
theorem c10_label_invariant (df : List LaggedRow) (t : ℚ) (r : LabeledRow)
    (hr : r ∈ label_breakouts df t) :
    (r.BREAKOUT = 0 ∨ r.BREAKOUT = 1) ∧
    (r.BREAKOUT = 1 → ∃ c, r.BREAKOUT_MAGNITUDE = some c ∧ t ≤ c) := by
  rcases mem_label_breakouts.mp hr with ⟨x, -, rfl⟩
  refine ⟨labelRow_BREAKOUT_zero_or_one, ?_⟩
  intro h1
  rcases labelRow_BREAKOUT_eq_one.mp h1 with ⟨hp, c, hc, htc⟩
  refine ⟨c, ?_, htc⟩
  simp only [labelRow]
  simp [hp, hc]

/-- Evaluates C10 on a concrete positive row. -/
theorem c10_label_invariant_witness :
    ((labelRow 5 lagEx).BREAKOUT = 0 ∨ (labelRow 5 lagEx).BREAKOUT = 1) ∧
    ((labelRow 5 lagEx).BREAKOUT = 1 →
      ∃ c, (labelRow 5 lagEx).BREAKOUT_MAGNITUDE = some c ∧ (5 : ℚ) ≤ c) :=
  c10_label_invariant [lagEx] 5 (labelRow 5 lagEx) (by simp [label_breakouts])

/-- C9: if zero seasons are successfully collected the run exits with a
non-zero status and writes no final dataset; if at least one season
succeeds, the run exits normally after producing the final
lag-augmented, breakout-labelled dataset. -/
theorem c9_exit_behaviour (inputs : List SeasonFetch) :
    (seasonsSucceeded inputs = 0 →
      (main_run inputs).exitCode = 1 ∧ (main_run inputs).finalDataset = none) ∧
    (0 < seasonsSucceeded inputs →
      (main_run inputs).exitCode = 0 ∧
      ∃ df, collect_all_seasons inputs = some df ∧
        (main_run inputs).finalDataset =
          some (label_breakouts (calculate_lag_features df) 5)) := by
  constructor
  · intro h0
    have h : inputs.filterMap collectSeason = [] := by
      rw [seasonsSucceeded] at h0
      exact List.length_eq_zero.mp h0
    simp [main_run, collect_all_seasons, h]
  · intro hpos
    have h : (inputs.filterMap collectSeason).isEmpty = false := by
      cases hl : inputs.filterMap collectSeason with
      | nil =>
        rw [seasonsSucceeded, hl] at hpos
        simp at hpos
      | cons a as => rfl
    have hc : collect_all_seasons inputs =
        some (inputs.filterMap collectSeason).flatten := by
      simp [collect_all_seasons, h]
    refine ⟨?_, (inputs.filterMap collectSeason).flatten, hc, ?_⟩ <;>
      simp [main_run, hc]

/-- Evaluates C9 on a run where the single season's fetches both
failed. -/
theorem c9_exit_behaviour_witness :
    (main_run [⟨"1996-97", none, none⟩]).exitCode = 1 ∧
    (main_run [⟨"1996-97", none, none⟩]).finalDataset = none :=
  (c9_exit_behaviour [⟨"1996-97", none, none⟩]).1 rfl

/-- String order is lexicographic: `s ≤ t` means the character list of
`s` is lexicographically below that of `t`, or the strings are equal. -/
theorem string_le_iff {a b : String} :
    a ≤ b ↔ List.Lex (· < ·) a.toList b.toList ∨ a = b := by
  rw [le_iff_lt_or_eq, String.lt_iff_toList_lt]
  exact Iff.rfl

/-- The propositional sort key restated through the string order. -/
theorem rowKeyLE_iff_le {a b : Row} :
    rowKeyLE a b ↔
      a.PLAYER_ID < b.PLAYER_ID ∨ (a.PLAYER_ID = b.PLAYER_ID ∧ a.SEASON ≤ b.SEASON) := by
  unfold rowKeyLE
  rw [string_le_iff]

/-- The boolean comparator agrees with the propositional sort key. -/
theorem rowLE_iff {a b : Row} : rowLE a b = true ↔ rowKeyLE a b := by
  rw [rowKeyLE_iff_le]
  simp [rowLE]

/-- The comparator is total. -/
theorem rowLE_total : ∀ a b : Row, rowLE a b || rowLE b a := by
  intro a b
  rw [Bool.or_eq_true, rowLE_iff, rowLE_iff, rowKeyLE_iff_le, rowKeyLE_iff_le]
  rcases Nat.lt_trichotomy a.PLAYER_ID b.PLAYER_ID with h | h | h
  · exact Or.inl (Or.inl h)
  · rcases le_total a.SEASON b.SEASON with hs | hs
    · exact Or.inl (Or.inr ⟨h, hs⟩)
    · exact Or.inr (Or.inr ⟨h.symm, hs⟩)
  · exact Or.inr (Or.inl h)

/-- The comparator is transitive. -/
theorem rowLE_trans : ∀ a b c : Row, rowLE a b → rowLE b c → rowLE a c := by
  intro a b c hab hbc
  rw [rowLE_iff, rowKeyLE_iff_le] at hab hbc ⊢
  rcases hab with h1 | ⟨e1, h1⟩ <;> rcases hbc with h2 | ⟨e2, h2⟩
  · exact Or.inl (h1.trans h2)
  · exact Or.inl (e2 ▸ h1)
  · exact Or.inl (e1 ▸ h2)
  · exact Or.inr ⟨e1.trans e2, h1.trans h2⟩

/-- Stability of the panel sort: the subsequence of rows with any fixed
(`PLAYER_ID`, `SEASON`) key is untouched by sorting. -/
theorem sortPanel_filter_key (df : List Row) (p : Nat) (s : String) :
    (sortPanel df).filter (fun r => r.PLAYER_ID == p && r.SEASON == s) =
      df.filter (fun r => r.PLAYER_ID == p && r.SEASON == s) := by
  have hpw : (df.filter (fun r => r.PLAYER_ID == p && r.SEASON == s)).Pairwise
      (fun a b => rowLE a b = true) := by
    apply List.pairwise_of_forall_mem_list
    intro a ha b hb
    have ha' := (List.mem_filter.mp ha).2
    have hb' := (List.mem_filter.mp hb).2
    simp only [Bool.and_eq_true, beq_iff_eq] at ha' hb'
    rw [rowLE_iff, rowKeyLE_iff_le]
    exact Or.inr ⟨ha'.1.trans hb'.1.symm, le_of_eq (ha'.2.trans hb'.2.symm)⟩
  have hsub : List.Sublist (df.filter (fun r => r.PLAYER_ID == p && r.SEASON == s))
      (sortPanel df) :=
    List.sublist_mergeSort rowLE_trans rowLE_total hpw (List.filter_sublist df)
  have heq : (df.filter (fun r => r.PLAYER_ID == p && r.SEASON == s)).filter
      (fun r => r.PLAYER_ID == p && r.SEASON == s) =
      df.filter (fun r => r.PLAYER_ID == p && r.SEASON == s) :=
    List.filter_eq_self.mpr (fun a ha => (List.mem_filter.mp ha).2)
  have hsub2 : List.Sublist (df.filter (fun r => r.PLAYER_ID == p && r.SEASON == s))
      ((sortPanel df).filter (fun r => r.PLAYER_ID == p && r.SEASON == s)) := by
    have h := hsub.filter (fun r => r.PLAYER_ID == p && r.SEASON == s)
    rwa [heq] at h
  have hperm : List.Perm ((sortPanel df).filter (fun r => r.PLAYER_ID == p && r.SEASON == s))
      (df.filter (fun r => r.PLAYER_ID == p && r.SEASON == s)) :=
    (List.mergeSort_perm df rowLE).filter _
  exact (hsub2.eq_of_length hperm.length_eq.symm).symm

/-- C8: the Lag Feature Engine's sort is a stable ascending sort by
(`PLAYER_ID`, `SEASON`) with the season order lexicographic on the
season token: the output is sorted by the key, is a permutation of the
input, and rows sharing a key keep their relative order (their filtered
subsequence is unchanged). -/
theorem c8_stable_sort (df : List Row) :
    (sortPanel df).Pairwise rowKeyLE ∧
    List.Perm (sortPanel df) df ∧
    ∀ p s, (sortPanel df).filter (fun r => r.PLAYER_ID == p && r.SEASON == s) =
      df.filter (fun r => r.PLAYER_ID == p && r.SEASON == s) := by
  refine ⟨?_, List.mergeSort_perm df rowLE, fun p s => sortPanel_filter_key df p s⟩
  have h := List.sorted_mergeSort rowLE_trans rowLE_total df
  exact h.imp (fun hab => rowLE_iff.mp hab)

/-- The example panel is already sorted by the comparator. -/
theorem panelEx_sorted : List.Pairwise (fun a b => rowLE a b = true) panelEx := by
  refine List.Pairwise.cons ?_ (List.pairwise_singleton _ _)
  intro b hb
  rw [List.mem_singleton] at hb
  subst hb
  with_unfolding_all decide

/-- Sorting the example panel leaves it unchanged. -/
theorem sortPanel_panelEx : sortPanel panelEx = panelEx :=
  List.mergeSort_of_sorted panelEx_sorted

/-- Lag features of the example panel, with the sort evaluated away. -/
theorem calculate_lag_features_panelEx :
    calculate_lag_features panelEx = lagPanelAux [] panelEx := by
  unfold calculate_lag_features
  rw [sortPanel_panelEx]

/-- The lag columns attached by `addLags` leave the underlying row
unchanged. -/
theorem addLags_base (r : Row) (g : List Row) : (addLags r g).base = r := rfl

/-- The change column is the missing-propagating difference of the
current value and the previous value. -/
theorem addLags_change (r : Row) (g : List Row) (m : LagMetric) :
    (addLags r g).change m = optSub (metricVal m r) ((addLags r g).prev m) := rfl

/-- The growth column is the guarded quotient of the change column by
the absolute previous value. -/
theorem addLags_growth (r : Row) (g : List Row) (m : LagMetric) :
    (addLags r g).growth m = growthOf ((addLags r g).change m) ((addLags r g).prev m) := rfl

/-- A missing left operand makes the difference missing. -/
theorem optSub_none_left (x : Option ℚ) : optSub none x = none := by
  cases x <;> rfl

/-- A missing right operand makes the difference missing. -/
theorem optSub_none_right (x : Option ℚ) : optSub x none = none := by
  cases x <;> rfl

/-- A missing change makes the growth rate missing. -/
theorem growthOf_none_left (x : Option ℚ) : growthOf none x = none := by
  cases x <;> rfl

/-- A missing previous value makes the growth rate missing. -/
theorem growthOf_none_right (x : Option ℚ) : growthOf x none = none := by
  cases x <;> rfl

/-- A zero previous value makes the growth rate missing. -/
theorem growthOf_zero (x : Option ℚ) : growthOf x (some 0) = none := by
  cases x <;> simp [growthOf]

/-- Every row of the lag pass is some row with attached lag columns. -/
theorem lagPanelAux_shape (l : List Row) :
    ∀ (seen : List Row) (x : LaggedRow), x ∈ lagPanelAux seen l → ∃ r g, x = addLags r g := by
  induction l with
  | nil =>
    intro seen x hx
    simp [lagPanelAux] at hx
  | cons r rest ih =>
    intro seen x hx
    simp only [lagPanelAux] at hx
    rcases List.mem_cons.mp hx with h | h
    · exact ⟨r, _, h⟩
    · exact ih (seen ++ [r]) x h

/-- Restricting the grouped-shift pass to one player's rows computes
the single-group pass on that player's subsequence: the pandas
`groupby(...).shift` reads, for each row, only the earlier rows with
the same `PLAYER_ID`. -/
theorem lagPanelAux_filter (p : Nat) (l : List Row) :
    ∀ seen : List Row,
      (lagPanelAux seen l).filter (fun o => o.base.PLAYER_ID == p) =
        lagGroup (seen.filter (fun r => r.PLAYER_ID == p))
          (l.filter (fun r => r.PLAYER_ID == p)) := by
  induction l with
  | nil =>
    intro seen
    simp [lagPanelAux, lagGroup]
  | cons r rest ih =>
    intro seen
    by_cases hp : r.PLAYER_ID = p
    · subst hp
      simp only [lagPanelAux, List.filter_cons, addLags_base, beq_self_eq_true, if_true]
      rw [ih (seen ++ [r])]
      simp [List.filter_append, lagGroup]
    · have hb : (r.PLAYER_ID == p) = false := by
        simp [hp]
      simp only [lagPanelAux, List.filter_cons, addLags_base, hb, Bool.false_eq_true, if_false]
      rw [ih (seen ++ [r])]
      have hseen : (seen ++ [r]).filter (fun x => x.PLAYER_ID == p) =
          seen.filter (fun x => x.PLAYER_ID == p) := by
        simp [List.filter_append, hb]
      rw [hseen]

/-- Indexing the single-group pass: the row at position `i` gets its
lag columns from the prefix of the group before it. -/
theorem lagGroup_getElem? (l : List Row) :
    ∀ (seen : List Row) (i : Nat),
      (lagGroup seen l)[i]? = (l[i]?).map (fun r => addLags r (seen ++ l.take i)) := by
  induction l with
  | nil =>
    intro seen i
    simp [lagGroup]
  | cons r rest ih =>
    intro seen i
    cases i with
    | zero => simp [lagGroup]
    | succ i =>
      simp only [lagGroup, List.getElem?_cons_succ, List.take_succ_cons]
      rw [ih (seen ++ [r]) i]
      simp [List.append_assoc]

/-- Indexing the per-player lag output: position `i` of a player's
lag-augmented sequence is their `i`-th sorted row with lag columns read
from the `i`-row prefix of their own sequence. -/
theorem laggedPlayerSeq_getElem? (df : List Row) (p : Nat) (i : Nat) :
    (laggedPlayerSeq df p)[i]? =
      ((playerSeq df p)[i]?).map (fun r => addLags r ((playerSeq df p).take i)) := by
  unfold laggedPlayerSeq calculate_lag_features playerSeq
  rw [lagPanelAux_filter p (sortPanel df) [], List.filter_nil, lagGroup_getElem?]
  simp

/-- The last element of an `i`-element prefix is the element at
position `i - 1`. -/
theorem getLast?_take_of_le {α : Type} (l : List α) (i : Nat) (h1 : 1 ≤ i)
    (h2 : i ≤ l.length) : (l.take i).getLast? = l[i-1]? := by
  rw [List.getLast?_eq_getElem?, List.length_take, Nat.min_eq_left h2,
    List.getElem?_take_of_lt (by omega)]

/-- Dropping the last element of an `i`-element prefix gives the
`(i-1)`-element prefix. -/
theorem dropLast_take {α : Type} (l : List α) (i : Nat) (h2 : i ≤ l.length) :
    (l.take i).dropLast = l.take (i - 1) := by
  rw [List.dropLast_eq_take, List.length_take, List.take_take]
  congr 1
  omega

/-- C2: after lag-feature computation, for every player, every metric
in the lag metric set and every position `i` of that player's
season-sorted sequence, the row's `_PREV` equals the metric's value at
position `i - 1` of the same player's sequence and `_2YRS_AGO` equals
the value at position `i - 2`, purely positionally (so regardless of
calendar gaps); at position 0 both lags are missing, and at position 1
only `_2YRS_AGO` is structurally missing (`_PREV` is the value at
position 0). -/
theorem c2_lag_alignment (df : List Row) (p : Nat) (m : LagMetric)
    (hm : m ∈ lag_metrics) (i : Nat) (hi : i < (playerSeq df p).length) :
    ((laggedPlayerSeq df p)[i]?).map LaggedRow.base = (playerSeq df p)[i]? ∧
    ((laggedPlayerSeq df p)[i]?).map (fun o => o.prev m) =
      some (if 1 ≤ i then ((playerSeq df p)[i-1]?).bind (metricVal m) else none) ∧
    ((laggedPlayerSeq df p)[i]?).map (fun o => o.twoAgo m) =
      some (if 2 ≤ i then ((playerSeq df p)[i-2]?).bind (metricVal m) else none) := by
  have hsome : (playerSeq df p)[i]? = some ((playerSeq df p)[i]) :=
    List.getElem?_eq_getElem hi
  rw [laggedPlayerSeq_getElem?, hsome]
  refine ⟨rfl, ?_, ?_⟩
  · show some (((playerSeq df p).take i).getLast?.bind (metricVal m)) = _
    by_cases h1 : 1 ≤ i
    · rw [if_pos h1, getLast?_take_of_le _ i h1 (le_of_lt hi)]
    · rw [if_neg h1]
      have hz : i = 0 := by omega
      subst hz
      simp
  · show some ((((playerSeq df p).take i).dropLast).getLast?.bind (metricVal m)) = _
    rw [dropLast_take _ i (le_of_lt hi)]
    by_cases h2 : 2 ≤ i
    · rw [if_pos h2, getLast?_take_of_le _ (i-1) (by omega) (by omega)]
      have he : i - 1 - 1 = i - 2 := by omega
      rw [he]
    · rw [if_neg h2]
      have hz : i - 1 = 0 := by omega
      rw [hz]
      simp

/-- Evaluates C2 at position 1 of the example player's sequence, whose
two recorded seasons have a calendar gap. -/
theorem c2_lag_alignment_witness :
    ((laggedPlayerSeq panelEx 1)[1]?).map LaggedRow.base = (playerSeq panelEx 1)[1]? ∧
    ((laggedPlayerSeq panelEx 1)[1]?).map (fun o => o.prev LagMetric.PTS) =
      some (if 1 ≤ 1 then ((playerSeq panelEx 1)[1-1]?).bind (metricVal LagMetric.PTS)
            else none) ∧
    ((laggedPlayerSeq panelEx 1)[1]?).map (fun o => o.twoAgo LagMetric.PTS) =
      some (if 2 ≤ 1 then ((playerSeq panelEx 1)[1-2]?).bind (metricVal LagMetric.PTS)
            else none) :=
  c2_lag_alignment panelEx 1 LagMetric.PTS (by decide) 1
    (by unfold playerSeq
        rw [sortPanel_panelEx]
        decide)

/-- C4: on every row of the lag-augmented panel and for every metric in
the lag metric set, the change column is the current value minus the
previous value with missing operands propagating, and the growth column
is the change divided by the absolute previous value, missing (never an
exception) whenever the previous value is missing or zero or the change
is missing. -/
theorem c4_change_growth (df : List Row) (m : LagMetric) (hm : m ∈ lag_metrics)
    (r : LaggedRow) (hr : r ∈ calculate_lag_features df) :
    (∀ v p, metricVal m r.base = some v → r.prev m = some p →
      r.change m = some (v - p)) ∧
    ((metricVal m r.base = none ∨ r.prev m = none) → r.change m = none) ∧
    (r.prev m = none → r.growth m = none) ∧
    (r.prev m = some 0 → r.growth m = none) ∧
    (r.change m = none → r.growth m = none) ∧
    (∀ p c, r.prev m = some p → p ≠ 0 → r.change m = some c →
      r.growth m = some (c / |p|)) := by
  obtain ⟨rr, g, rfl⟩ := lagPanelAux_shape (sortPanel df) [] r hr
  refine ⟨?_, ?_, ?_, ?_, ?_, ?_⟩
  · intro v p hv hp
    rw [addLags_base] at hv
    rw [addLags_change, hv, hp]
    rfl
  · rintro (hv | hp)
    · rw [addLags_base] at hv
      rw [addLags_change, hv, optSub_none_left]
    · rw [addLags_change, hp, optSub_none_right]
  · intro hp
    rw [addLags_growth, hp, growthOf_none_right]
  · intro hp
    rw [addLags_growth, hp, growthOf_zero]
  · intro hc
    rw [addLags_growth, hc, growthOf_none_left]
  · intro p c hp hpne hc
    rw [addLags_growth, hc, hp]
    simp [growthOf, hpne]

/-- Evaluates C4 on the example's second row: previous points 10,
current points 16. -/
theorem c4_change_growth_witness :
    lagRowEx.growth LagMetric.PTS = some ((16 - 10) / |(10 : ℚ)|) :=
  (c4_change_growth panelEx LagMetric.PTS (by decide) lagRowEx
      (by rw [calculate_lag_features_panelEx]
          exact List.get_mem _ 1 _)).2.2.2.2.2
    10 (16 - 10) rfl (by with_unfolding_all decide) rfl

end NbaRegressor
